import Mathlib

/-!
Shallow embedding of the CellWay route-optimization core:
  - `haversineDist` embeds `haversine_distance` (backend/utils/geometry.py).
  - `findTowersNearRouteShapely` embeds `find_towers_near_route_shapely`
    (backend/utils/geometry.py), with the Shapely planar primitives
    (point-to-segment distance, nearest point, arc-length projection)
    spelled out over the real numbers.
  - `find_towers_along_route` embeds the wrapper of the same name
    (backend/services/tower_service.py), including the 200-tower cap.
  - `scoreRoutes`, `normalizeScores`, `selectTriple`, `selectOptimizedRoutes`
    embed `_select_optimized_routes` (backend/services/routing_service.py),
    decomposed into its scoring, normalization, ranking and diversity phases.
  - `getOptimizedRoute` embeds `_get_optimized_route`
    (backend/services/routing_service.py); the external GraphHopper routing
    provider and the tower-data provider are passed in as function
    parameters, mirroring the collaborator interfaces they implement.
Float arithmetic in the source is modelled as exact arithmetic: real numbers
where the source computes with transcendental functions, rationals for the
scoring pipeline.
-/

open Classical

noncomputable section

/-- A planar point in Shapely convention: `(x, y) = (longitude, latitude)`, degrees. -/
abbrev Pt := ℝ × ℝ

/-- Embeds `haversine_distance(lat1, lon1, lat2, lon2)` from
`backend/utils/geometry.py`: great-circle distance in meters with Earth
radius 6,371,000 m.  The `try/except` branch returning infinity concerns
non-numeric Python inputs, which cannot arise for real-number arguments. -/
def haversineDist (lat1 lon1 lat2 lon2 : ℝ) : ℝ :=
  let earth_radius : ℝ := 6371000
  let lat1_rad := lat1 * Real.pi / 180
  let lon1_rad := lon1 * Real.pi / 180
  let lat2_rad := lat2 * Real.pi / 180
  let lon2_rad := lon2 * Real.pi / 180
  let dlat := lat2_rad - lat1_rad
  let dlon := lon2_rad - lon1_rad
  let a := Real.sin (dlat / 2) ^ 2 +
    Real.cos lat1_rad * Real.cos lat2_rad * Real.sin (dlon / 2) ^ 2
  let c := 2 * Real.arcsin (Real.sqrt a)
  earth_radius * c

/-- A cell tower record.  `lat?`/`lon?` are `none` when the corresponding
dictionary key is missing (the source guards with `'lat' in tower and 'lon' in
tower`); `averageSignal` is `none` when the record lacks that key (the source
reads it with `tower.get("averageSignal", -120)`).  `tag` stands for the
remaining opaque fields and distinguishes otherwise equal records. -/
structure Tower where
  lat? : Option ℝ
  lon? : Option ℝ
  averageSignal : Option ℚ
  tag : ℕ
deriving DecidableEq

/-- An augmented copy of a tower as produced by the proximity search:
the original record plus `distanceToRoute` and `positionAlongRoute`. -/
structure AugTower where
  base : Tower
  distanceToRoute : ℝ
  positionAlongRoute : ℝ

/-- Squared planar distance between two points (degrees treated as planar x,y). -/
def sqDist (p q : Pt) : ℝ := (p.1 - q.1) ^ 2 + (p.2 - q.2) ^ 2

/-- Clamped projection parameter of `p` onto the segment from `a` to `b`:
the `t` in `[0,1]` with `a + t*(b-a)` closest to `p` (0 for a degenerate
segment).  This is the standard planar primitive behind Shapely's
`nearest_points` and `project` on a `LineString`. -/
def segParam (a b p : Pt) : ℝ :=
  let dx := b.1 - a.1
  let dy := b.2 - a.2
  let len2 := dx ^ 2 + dy ^ 2
  if len2 = 0 then 0
  else max 0 (min 1 (((p.1 - a.1) * dx + (p.2 - a.2) * dy) / len2))

/-- Closest point to `p` on the segment from `a` to `b`. -/
def segClosest (a b p : Pt) : Pt :=
  let t := segParam a b p
  (a.1 + t * (b.1 - a.1), a.2 + t * (b.2 - a.2))

/-- Planar length of one segment. -/
def segLength (s : Pt × Pt) : ℝ := Real.sqrt (sqDist s.1 s.2)

/-- The segments of a polyline (`LineString`) given by its vertex list. -/
def segsOf (coords : List Pt) : List (Pt × Pt) := coords.zip coords.tail

/-- Total planar length of a polyline, in degrees (`route_line.length`). -/
def polyLength (segs : List (Pt × Pt)) : ℝ :=
  segs.foldl (fun acc s => acc + segLength s) 0

/-- Nearest point on the polyline to `p` (`nearest_points(route_line, p)[0]`):
the closest of the per-segment closest points, the earliest segment winning
ties.  Returns `p` itself for an empty segment list (unreachable: callers
guard on at least two vertices). -/
def lineNearest (segs : List (Pt × Pt)) (p : Pt) : Pt :=
  match segs with
  | [] => p
  | s :: rest =>
    rest.foldl
      (fun best ab =>
        let c := segClosest ab.1 ab.2 p
        if sqDist p c < sqDist p best then c else best)
      (segClosest s.1 s.2 p)

/-- Arc length along the polyline at the projection of `q`
(`route_line.project(q)`): walk the segments accumulating planar length,
tracking the closest projection seen so far (earliest segment wins ties). -/
def lineProject (segs : List (Pt × Pt)) (q : Pt) : ℝ :=
  let step := fun (st : ℝ × Option (ℝ × ℝ)) (ab : Pt × Pt) =>
    let (acc, best) := st
    let c := segClosest ab.1 ab.2 q
    let s := sqDist q c
    let here := acc + segParam ab.1 ab.2 q * segLength ab
    let best' :=
      match best with
      | none => some (s, here)
      | some (bs, bp) => if s < bs then some (s, here) else some (bs, bp)
    (acc + segLength ab, best')
  match (segs.foldl step (0, none)).2 with
  | some (_, pos) => pos
  | none => 0

/-- Processing of one tower inside the loop of `find_towers_near_route_shapely`:
skip records without `lat`/`lon`; apply the coarse degree pre-filter
(`max_distance_meters / 111000`, inflated by 1.5); then keep the tower if the
haversine distance to its nearest point on the route is within
`max_distance_meters`, attaching `distanceToRoute` and the clamped
`positionAlongRoute`. -/
def processTower (segs : List (Pt × Pt)) (routeLength : ℝ) (maxDistanceMeters : ℝ)
    (tower : Tower) : Option AugTower :=
  match tower.lat?, tower.lon? with
  | some lat, some lon =>
    let towerPoint : Pt := (lon, lat)
    let nearestRoutePoint := lineNearest segs towerPoint
    let distanceDegrees := Real.sqrt (sqDist towerPoint nearestRoutePoint)
    let maxDistDegreesApprox := maxDistanceMeters / 111000
    if distanceDegrees ≤ maxDistDegreesApprox * 1.5 then
      let distanceMeters :=
        haversineDist towerPoint.2 towerPoint.1 nearestRoutePoint.2 nearestRoutePoint.1
      if distanceMeters ≤ maxDistanceMeters then
        let positionDegrees := lineProject segs nearestRoutePoint
        let positionNormalized := if routeLength > 0 then positionDegrees / routeLength else 0
        some ⟨tower, distanceMeters, max 0 (min 1 positionNormalized)⟩
      else none
    else none
  | _, _ => none

/-- Embeds `find_towers_near_route_shapely(route_coords, towers,
max_distance_meters)` from `backend/utils/geometry.py`: guard on short routes
and empty tower lists, per-tower filtering via `processTower`, and a final
stable sort by `positionAlongRoute`. -/
def findTowersNearRouteShapely (routeCoords : List Pt) (towers : List Tower)
    (maxDistanceMeters : ℝ) : List AugTower :=
  if routeCoords.length < 2 ∨ towers = [] then []
  else
    let routeSegs := segsOf routeCoords
    let routeLength := polyLength routeSegs
    let nearbyTowers := towers.filterMap (processTower routeSegs routeLength maxDistanceMeters)
    nearbyTowers.mergeSort (fun a b => decide (a.positionAlongRoute ≤ b.positionAlongRoute))

/-- Maximum number of towers returned as "along" a route
(`MAX_TOWERS_ALONG_ROUTE` in `backend/services/tower_service.py`). -/
def MAX_TOWERS_ALONG_ROUTE : ℕ := 200

/-- Maximum distance in meters for a tower to count as along the route
(`TOWER_PROXIMITY_METERS` in `backend/services/routing_service.py`). -/
def TOWER_PROXIMITY_METERS : ℝ := 2500

/-- The uniform stride `int(i * (num_nearby_towers / MAX_TOWERS_ALONG_ROUTE))`
used to downsample an oversized tower list; the Python float product of these
integer-derived quantities truncates to the same value as exact floor
division. -/
def sampleIndices (numNearby : ℕ) : List ℕ :=
  (List.range MAX_TOWERS_ALONG_ROUTE).map (fun i => i * numNearby / MAX_TOWERS_ALONG_ROUTE)

/-- Embeds `find_towers_along_route(route_coordinates, area_towers,
max_distance_meters)` from `backend/services/tower_service.py`: guard on empty
inputs, delegate to the Shapely search, and downsample to at most
`MAX_TOWERS_ALONG_ROUTE` towers by uniform index striding. -/
def find_towers_along_route (routeCoordinates : List Pt) (areaTowers : List Tower)
    (maxDistanceMeters : ℝ) : List AugTower :=
  if routeCoordinates = [] ∨ areaTowers = [] then []
  else
    let nearbyCellTowers := findTowersNearRouteShapely routeCoordinates areaTowers maxDistanceMeters
    let numNearbyTowers := nearbyCellTowers.length
    if MAX_TOWERS_ALONG_ROUTE < numNearbyTowers then
      (sampleIndices numNearbyTowers).filterMap (fun i => nearbyCellTowers.get? i)
    else nearbyCellTowers

/-- A parsed candidate route as produced by `_parse_graphhopper_path`: its
geometry coordinates (longitude, latitude), duration in seconds and distance
in meters.  The remaining fields (legs, weight, ascent...) are opaque to the
selector. -/
structure Route where
  coordinates : List Pt
  duration : ℚ
  distance : ℚ

/-- Signal strength read from an augmented tower:
`tower.get("averageSignal", -120)`. -/
def towerSignal (t : AugTower) : ℚ := t.base.averageSignal.getD (-120)

/-- Average signal along a route: mean of the tower signal strengths, or the
default weak signal -120 when no towers were found (lines 242-246 of
`_select_optimized_routes`). -/
def avgSignalOf (towersAlongRoute : List AugTower) : ℚ :=
  if 0 < towersAlongRoute.length then
    (towersAlongRoute.map towerSignal).sum / towersAlongRoute.length
  else -120

/-- A route together with the per-route metrics computed by the first loop of
`_select_optimized_routes`. -/
structure ScoredBase where
  route : Route
  towers : List AugTower
  tower_count : ℕ
  avg_signal : ℚ
  duration : ℚ
  index : ℕ

/-- A scored route after the normalization pass added `norm_duration`,
`norm_signal` and `balanced_score`. -/
structure Scored extends ScoredBase where
  norm_duration : ℚ
  norm_signal : ℚ
  balanced_score : ℚ

/-- The first loop of `_select_optimized_routes`: for each candidate (with its
`enumerate` index) find the towers along it, count them and average their
signal. -/
def scoreRoutes (alternativeRoutes : List Route) (towersInArea : List Tower) : List ScoredBase :=
  alternativeRoutes.enum.map (fun ir =>
    let towersAlongRoute := find_towers_along_route ir.2.coordinates towersInArea TOWER_PROXIMITY_METERS
    { route := ir.2
      towers := towersAlongRoute
      tower_count := towersAlongRoute.length
      avg_signal := avgSignalOf towersAlongRoute
      duration := ir.2.duration
      index := ir.1 })

/-- Minimum of a list of rationals (`min(...)` over a non-empty Python
generator; 0 for the empty list, which the callers rule out). -/
def qMin : List ℚ → ℚ
  | [] => 0
  | x :: xs => xs.foldl min x

/-- Maximum of a list of rationals. -/
def qMax : List ℚ → ℚ
  | [] => 0
  | x :: xs => xs.foldl max x

/-- The clamp `max(0, min(1, x))` used during normalization. -/
def clampQ (x : ℚ) : ℚ := max 0 (min 1 x)

/-- The normalization pass of `_select_optimized_routes` (lines 271-289):
ranges are `max(1, max - min)`, duration is inverted, and the balanced score
weighs both normalized scores equally. -/
def normalizeScores (routesWithScores : List ScoredBase) : List Scored :=
  let min_duration := qMin (routesWithScores.map (·.duration))
  let max_duration := qMax (routesWithScores.map (·.duration))
  let duration_range := max 1 (max_duration - min_duration)
  let min_signal := qMin (routesWithScores.map (·.avg_signal))
  let max_signal := qMax (routesWithScores.map (·.avg_signal))
  let signal_range := max 1 (max_signal - min_signal)
  routesWithScores.map (fun s =>
    let norm_duration := 1 - clampQ ((s.duration - min_duration) / duration_range)
    let norm_signal := clampQ ((s.avg_signal - min_signal) / signal_range)
    { toScoredBase := s
      norm_duration := norm_duration
      norm_signal := norm_signal
      balanced_score := norm_duration * (1 / 2) + norm_signal * (1 / 2) })

/-- `sorted(routes_with_scores, key=lambda x: x["duration"])`. -/
def sortByDuration (l : List Scored) : List Scored :=
  l.mergeSort (fun a b => decide (a.duration ≤ b.duration))

/-- `sorted(routes_with_scores, key=lambda x: (-x["avg_signal"], -x["tower_count"]))`. -/
def sortBySignal (l : List Scored) : List Scored :=
  l.mergeSort (fun a b => decide (b.avg_signal < a.avg_signal ∨
    (a.avg_signal = b.avg_signal ∧ b.tower_count ≤ a.tower_count)))

/-- `sorted(routes_with_scores, key=lambda x: -x["balanced_score"])`. -/
def sortByBalanced (l : List Scored) : List Scored :=
  l.mergeSort (fun a b => decide (b.balanced_score ≤ a.balanced_score))

/-- One diversity step: if the ranking's top pick is already used, take the
first candidate further down the ranking whose index is unused; when all are
used, fall back to the top pick (duplication permitted). -/
def pickAlt (top : Scored) (rest : List Scored) (used : List ℕ) : Scored :=
  if top.index ∈ used then
    match rest.find? (fun s => decide (s.index ∉ used)) with
    | some s => s
    | none => top
  else top

/-- The ranking and greedy diversity pass of `_select_optimized_routes`
(lines 291-333), returning the fastest, cell-coverage and balanced picks with
their diversity bookkeeping indices. -/
def selectTriple (routesWithScores : List Scored) :
    Option Scored × Option Scored × Option Scored :=
  let routes_sorted_by_duration := sortByDuration routesWithScores
  let routes_sorted_by_signal := sortBySignal routesWithScores
  let routes_sorted_by_balanced := sortByBalanced routesWithScores
  let selected_fastest := routes_sorted_by_duration.head?
  let selected_cell := routes_sorted_by_signal.head?
  let selected_balanced := routes_sorted_by_balanced.head?
  let used0 : List ℕ := match selected_fastest with
    | some f => [f.index]
    | none => []
  let cell_pick := selected_cell.map
    (fun top => pickAlt top routes_sorted_by_signal.tail used0)
  let used1 : List ℕ := match cell_pick with
    | some c => used0 ++ [c.index]
    | none => used0
  let balanced_pick := selected_balanced.map
    (fun top => pickAlt top routes_sorted_by_balanced.tail used1)
  (selected_fastest, cell_pick, balanced_pick)

/-- One entry of the selection result: the chosen route (or absent) and the
towers along it. -/
structure Pick where
  route : Option Route
  towers : List AugTower

/-- The selection result: one pick per optimization type. -/
structure Selection where
  fastest : Pick
  cell_coverage : Pick
  balanced : Pick

/-- Projection of a selected scored route to the output shape
(absent winner becomes route None with empty towers). -/
def toPick : Option Scored → Pick
  | some s => ⟨some s.route, s.towers⟩
  | none => ⟨none, []⟩

/-- The all-empty selection returned for an empty candidate list. -/
def emptySelection : Selection := ⟨⟨none, []⟩, ⟨none, []⟩, ⟨none, []⟩⟩

/-- Embeds `_select_optimized_routes(alternative_routes, towers_in_area)` from
`backend/services/routing_service.py`: guard on an empty candidate list,
score, normalize, rank with the diversity pass, and project to the
per-optimization-type picks. -/
def selectOptimizedRoutes (alternativeRoutes : List Route) (towersInArea : List Tower) :
    Selection :=
  if alternativeRoutes = [] then emptySelection
  else
    let routesWithScores := normalizeScores (scoreRoutes alternativeRoutes towersInArea)
    if routesWithScores = [] then emptySelection
    else
      let (f, c, b) := selectTriple routesWithScores
      ⟨toPick f, toPick c, toPick b⟩

/-- Modelled from the claim under test, for comparison with the source
normalization: `norm_duration` with a range guard that replaces the range by 1
only when it is exactly 0. -/
def claimNormDuration (duration minDuration maxDuration : ℚ) : ℚ :=
  let range := maxDuration - minDuration
  let safeRange := if range = 0 then 1 else range
  1 - clampQ ((duration - minDuration) / safeRange)

/-- Buffer in degrees around the route endpoints for the tower search area
(`TOWER_SEARCH_BUFFER`). -/
def TOWER_SEARCH_BUFFER : ℝ := 0.1

/-- A waypoint returned by the routing provider: name and (lng, lat) location. -/
structure Waypoint where
  name : String
  location : Pt

/-- Response of the external routing provider (`_calculate_graphhopper_routes`
seen through its returned dictionary): either code `Ok` with parsed routes and
waypoints, or an error code (`PointNotFound`, `NoRoute`, `Error`) with a
message. -/
inductive RouteResp where
  | ok (routes : List Route) (waypoints : List Waypoint)
  | err (code : String) (message : String)

/-- Response of the external tower-data provider (`get_cell_towers`): towers in
the bounding box and a data-source label. -/
structure TowersResp where
  towers : List Tower
  source : String

/-- Result of the orchestrator `_get_optimized_route`: an error dictionary or
the assembled success payload. -/
inductive OrchResult where
  | err (code : String) (message : String)
  | ok (routes : List Route) (waypoints : List Waypoint) (towers : List AugTower)
      (optimization_type : String) (tower_data_source : String)

/-- Dictionary lookup `optimized_route_selection.get(optimization_type)`. -/
def selGet (sel : Selection) (key : String) : Option Pick :=
  if key = "fastest" then some sel.fastest
  else if key = "cell_coverage" then some sel.cell_coverage
  else if key = "balanced" then some sel.balanced
  else none

/-- A pick usable for the final response: present and carrying a route
(`selected_route_information and selected_route_information.get("route")`). -/
def routePickOf (p : Pick) : Option (Route × List AugTower) :=
  p.route.map (fun r => (r, p.towers))

/-- Steps 3-4 of `_get_optimized_route` (lines 414-441): look up the requested
optimization type, fall back to the fastest pick when it carries no route, fail
with `NoRoute` when the fastest pick is empty too, and otherwise assemble the
final payload labeled with the requested optimization type. -/
def assembleResult (sel : Selection) (optimizationType : String)
    (waypoints : List Waypoint) (towerDataSource : String) : OrchResult :=
  let selected := (selGet sel optimizationType).bind routePickOf
  let selected := match selected with
    | some x => some x
    | none => routePickOf sel.fastest
  match selected with
  | some (finalRoute, finalTowers) =>
    .ok [finalRoute] waypoints finalTowers optimizationType towerDataSource
  | none => .err "NoRoute" "Could not determine any suitable route."

/-- The inline haversine precheck of `_get_optimized_route` (lines 369-379):
great-circle distance between start and end in kilometers, Earth radius
6371 km. -/
def preDistKm (start_lat start_lng end_lat end_lng : ℝ) : ℝ :=
  let lat1 := start_lat * Real.pi / 180
  let lng1 := start_lng * Real.pi / 180
  let lat2 := end_lat * Real.pi / 180
  let lng2 := end_lng * Real.pi / 180
  let dlat := lat2 - lat1
  let dlng := lng2 - lng1
  let a := Real.sin (dlat / 2) ^ 2 + Real.cos lat1 * Real.cos lat2 * Real.sin (dlng / 2) ^ 2
  let c := 2 * Real.arcsin (Real.sqrt a)
  6371 * c

/-- The collaborator interface of the routing provider: start/end coordinates
to a routing response. -/
abbrev RouteProvider := ℝ → ℝ → ℝ → ℝ → RouteResp

/-- The collaborator interface of the tower-data provider: bounding box
(min lat, min lng, max lat, max lng) to towers plus source label. -/
abbrev TowerProvider := ℝ → ℝ → ℝ → ℝ → TowersResp

/-- Steps 1-4 of `_get_optimized_route` after the distance precheck: fetch
route alternatives (propagating provider failure verbatim), fail with
`NoRoute` on zero routes, fetch towers in the buffered bounding box, select,
and assemble. -/
def orchAfterPrecheck (routeProvider : RouteProvider) (towerProvider : TowerProvider)
    (start_lat start_lng end_lat end_lng : ℝ) (optimizationType : String) : OrchResult :=
  match routeProvider start_lat start_lng end_lat end_lng with
  | .err code message => .err code message
  | .ok alternativeRoutes waypoints =>
    if alternativeRoutes = [] then
      .err "NoRoute" "No routes found between the specified points."
    else
      let towersData := towerProvider
        (min start_lat end_lat - TOWER_SEARCH_BUFFER)
        (min start_lng end_lng - TOWER_SEARCH_BUFFER)
        (max start_lat end_lat + TOWER_SEARCH_BUFFER)
        (max start_lng end_lng + TOWER_SEARCH_BUFFER)
      let sel := selectOptimizedRoutes alternativeRoutes towersData.towers
      assembleResult sel optimizationType waypoints towersData.source

/-- Embeds `_get_optimized_route(start_lat, start_lng, end_lat, end_lng,
optimization_type)` from `backend/services/routing_service.py`, with the two
external collaborators passed as function parameters.  The 900 km free-tier
precheck fails fast before either provider is consulted. -/
def getOptimizedRoute (routeProvider : RouteProvider) (towerProvider : TowerProvider)
    (start_lat start_lng end_lat end_lng : ℝ) (optimizationType : String) : OrchResult :=
  if preDistKm start_lat start_lng end_lat end_lng > 900 then
    .err "DistanceLimitExceeded"
      "Route exceeds the maximum waypoint distance limit of the GraphHopper API free tier."
  else
    orchAfterPrecheck routeProvider towerProvider start_lat start_lng end_lat end_lng
      optimizationType

end

theorem sin_sq_swap (x y : ℝ) : Real.sin ((x - y) / 2) ^ 2 = Real.sin ((y - x) / 2) ^ 2 := by
  rw [show (y - x) / 2 = -((x - y) / 2) by ring, Real.sin_neg]
  ring

theorem processTower_base {segs : List (Pt × Pt)} {L maxd : ℝ} {t : Tower} {aug : AugTower}
    (h : processTower segs L maxd t = some aug) : aug.base = t := by
  unfold processTower at h
  cases hlat : t.lat? with
  | none => rw [hlat] at h; exact absurd h (by simp)
  | some lat =>
    cases hlon : t.lon? with
    | none => rw [hlat, hlon] at h; exact absurd h (by simp)
    | some lon =>
      rw [hlat, hlon] at h
      simp only [] at h
      split_ifs at h
      all_goals injection h with h
      all_goals rw [← h]

theorem processTower_isSome_iff {segs : List (Pt × Pt)} {L maxd : ℝ} {t : Tower}
    {lat lon : ℝ} (hlat : t.lat? = some lat) (hlon : t.lon? = some lon) :
    (∃ aug, processTower segs L maxd t = some aug) ↔
      (Real.sqrt (sqDist (lon, lat) (lineNearest segs (lon, lat))) ≤ maxd / 111000 * 1.5 ∧
       haversineDist lat lon (lineNearest segs (lon, lat)).2 (lineNearest segs (lon, lat)).1
         ≤ maxd) := by
  unfold processTower
  rw [hlat, hlon]
  simp only []
  split_ifs with h1 h2
  · exact ⟨fun _ => ⟨h1, h2⟩, fun _ => ⟨_, rfl⟩⟩
  · exact ⟨fun _ => ⟨h1, h2⟩, fun _ => ⟨_, rfl⟩⟩
  · constructor
    · rintro ⟨aug, h⟩; exact absurd h (by simp)
    · rintro ⟨-, hc⟩; exact absurd hc h2
  · constructor
    · rintro ⟨aug, h⟩; exact absurd h (by simp)
    · rintro ⟨hc, -⟩; exact absurd hc h1

/-- C2 (amended): a tower carrying `lat` and `lon` appears in the output of the
proximity search if and only if it passes BOTH the coarse degree pre-filter
(planar degree distance to the polyline at most `1.5 * maxDistanceMeters /
111000`) AND the authoritative check (haversine distance to its nearest point
on the polyline at most `maxDistanceMeters`).  The pre-filter is part of the
inclusion semantics, not a pure optimization. -/
theorem towers_near_route_membership (coords : List Pt) (towers : List Tower)
    (maxd : ℝ) (tw : Tower) (lat lon : ℝ)
    (hlen : 2 ≤ coords.length) (htw : tw ∈ towers)
    (hlat : tw.lat? = some lat) (hlon : tw.lon? = some lon) :
    (∃ aug ∈ findTowersNearRouteShapely coords towers maxd, aug.base = tw) ↔
      (Real.sqrt (sqDist (lon, lat) (lineNearest (segsOf coords) (lon, lat)))
          ≤ maxd / 111000 * 1.5 ∧
       haversineDist lat lon (lineNearest (segsOf coords) (lon, lat)).2
          (lineNearest (segsOf coords) (lon, lat)).1 ≤ maxd) := by
  have hne : towers ≠ [] := by rintro rfl; exact absurd htw (by simp)
  have hguard : ¬(coords.length < 2 ∨ towers = []) := by
    push_neg; exact ⟨by omega, hne⟩
  unfold findTowersNearRouteShapely
  rw [if_neg hguard]
  simp only []
  constructor
  · rintro ⟨aug, hmem, hbase⟩
    rw [List.mem_mergeSort, List.mem_filterMap] at hmem
    obtain ⟨tw', htw', hproc⟩ := hmem
    have : tw' = tw := by rw [← hbase, processTower_base hproc]
    subst this
    exact (processTower_isSome_iff hlat hlon).mp ⟨aug, hproc⟩
  · intro hcond
    obtain ⟨aug, hproc⟩ := (@processTower_isSome_iff (segsOf coords)
      (polyLength (segsOf coords)) maxd tw lat lon hlat hlon).mpr hcond
    exact ⟨aug, by
      rw [List.mem_mergeSort, List.mem_filterMap]
      exact ⟨tw, htw, hproc⟩, processTower_base hproc⟩

theorem haversine_pole : haversineDist 90 10 90 0 = 0 := by
  simp only [haversineDist]
  rw [show (90 : ℝ) * Real.pi / 180 = Real.pi / 2 by ring, Real.cos_pi_div_two]
  norm_num [Real.sin_zero, Real.sqrt_zero, Real.arcsin_zero]

theorem pole_route_nearest :
    lineNearest (segsOf [((0 : ℝ), 89), (0, 90)]) (10, 90) = (0, 90) := by
  norm_num [segsOf, lineNearest, segClosest, segParam]

/-- C2 (counterexample): for the polar route `[(0,89), (0,90)]` (lon, lat),
the tower at latitude 90, longitude 10 has haversine distance 0 to its
nearest point on the route, so by the claim it should be kept for
`maxDistanceMeters = 2500`; but the coarse degree pre-filter measures 10
planar degrees and rejects it, so the search returns the empty list. -/
theorem towers_near_route_prefilter_cex :
    haversineDist 90 10 90 0 ≤ 2500 ∧
    lineNearest (segsOf [((0 : ℝ), 89), (0, 90)]) (10, 90) = (0, 90) ∧
    findTowersNearRouteShapely [((0 : ℝ), 89), (0, 90)]
      [⟨some 90, some 10, none, 0⟩] 2500 = [] := by
  refine ⟨by rw [haversine_pole]; norm_num, pole_route_nearest, ?_⟩
  have hproc : processTower (segsOf [((0 : ℝ), 89), (0, 90)])
      (polyLength (segsOf [((0 : ℝ), 89), (0, 90)])) 2500 ⟨some 90, some 10, none, 0⟩ = none := by
    simp only [processTower, pole_route_nearest]
    rw [if_neg]
    rw [show sqDist ((10 : ℝ), 90) (0, 90) = 10 ^ 2 by norm_num [sqDist], Real.sqrt_sq (by norm_num)]
    norm_num
  simp [findTowersNearRouteShapely, hproc]

/-- C9: the proximity search is total and degrades instead of failing: a route
with fewer than two coordinates yields the empty list, and a malformed tower
record (missing `lat` or `lon`) is skipped without affecting the rest of the
search.  (The Python `try/except` blanket handlers have no counterpart here:
every operation of the embedded body is total.) -/
theorem towers_near_route_skips_bad (coords : List Pt) (towers pre post : List Tower)
    (bad : Tower) (maxd : ℝ) :
    (coords.length < 2 → findTowersNearRouteShapely coords towers maxd = []) ∧
    (bad.lat? = none ∨ bad.lon? = none →
      findTowersNearRouteShapely coords (pre ++ bad :: post) maxd =
        findTowersNearRouteShapely coords (pre ++ post) maxd) := by
  constructor
  · intro h
    unfold findTowersNearRouteShapely
    rw [if_pos (Or.inl h)]
  · intro hbad
    have hnone : ∀ (segs : List (Pt × Pt)) (L : ℝ), processTower segs L maxd bad = none := by
      intro segs L
      rcases hl : bad.lat? with _ | lat <;> rcases hl' : bad.lon? with _ | lon
      · simp [processTower, hl, hl']
      · simp [processTower, hl, hl']
      · simp [processTower, hl, hl']
      · simp_all
    unfold findTowersNearRouteShapely
    by_cases hc : coords.length < 2
    · rw [if_pos (Or.inl hc), if_pos (Or.inl hc)]
    · by_cases hpp : pre ++ post = []
      · have hpre : pre = [] := by cases pre <;> simp_all
        have hpost : post = [] := by subst hpre; simpa using hpp
        subst hpre; subst hpost
        rw [if_neg (by simp [hc]), if_pos (Or.inr (by simp))]
        simp [hnone]
      · rw [if_neg (by simp [hc]), if_neg (by simp [hc, hpp])]
        simp only []
        rw [show List.filterMap (processTower (segsOf coords) (polyLength (segsOf coords)) maxd)
              (pre ++ bad :: post) =
            List.filterMap (processTower (segsOf coords) (polyLength (segsOf coords)) maxd)
              (pre ++ post) by
          simp [List.filterMap_append, List.filterMap_cons, hnone]]

/-- C7: the selector maps an empty candidate list to the selection in which
all three optimization types carry an absent route and an empty tower list. -/
theorem select_empty_candidates (towersInArea : List Tower) :
    selectOptimizedRoutes [] towersInArea =
      ⟨⟨none, []⟩, ⟨none, []⟩, ⟨none, []⟩⟩ := by
  unfold selectOptimizedRoutes
  rw [if_pos rfl]
  rfl

/-- C10: a tower along the route that lacks the signal-strength field reads as
-120 and contributes that value to the average being computed; it is counted,
not excluded, and raises no error. -/
theorem avg_signal_missing_field (pre post : List AugTower) (la lo : Option ℝ)
    (tg : ℕ) (d p : ℝ) :
    towerSignal ⟨⟨la, lo, none, tg⟩, d, p⟩ = -120 ∧
    avgSignalOf (pre ++ ⟨⟨la, lo, none, tg⟩, d, p⟩ :: post) =
      avgSignalOf (pre ++ ⟨⟨la, lo, some (-120), tg⟩, d, p⟩ :: post) := by
  refine ⟨rfl, ?_⟩
  simp [avgSignalOf, towerSignal]

/-- C6: when the requested optimization type finds no route in the selection,
the assembled result falls back to the fastest pick while still labeling the
payload with the requested type; when even the fastest pick carries no route,
the result is a NoRoute failure. -/
theorem fallback_to_fastest (sel : Selection) (optimizationType : String)
    (waypoints : List Waypoint) (towerDataSource : String)
    (hmiss : (selGet sel optimizationType).bind routePickOf = none) :
    (∀ r, sel.fastest.route = some r →
      assembleResult sel optimizationType waypoints towerDataSource =
        .ok [r] waypoints sel.fastest.towers optimizationType towerDataSource) ∧
    (sel.fastest.route = none →
      assembleResult sel optimizationType waypoints towerDataSource =
        .err "NoRoute" "Could not determine any suitable route.") := by
  constructor
  · intro r hr
    unfold assembleResult
    rw [hmiss]
    simp [routePickOf, hr]
  · intro hr
    unfold assembleResult
    rw [hmiss]
    simp [routePickOf, hr]

theorem fallback_to_fastest_witness :
    (assembleResult ⟨⟨some ⟨[], 100, 1000⟩, []⟩, ⟨none, []⟩, ⟨none, []⟩⟩
        "cell_coverage" [] "CSV" =
      .ok [⟨[], 100, 1000⟩] [] [] "cell_coverage" "CSV") ∧
    (assembleResult ⟨⟨none, []⟩, ⟨none, []⟩, ⟨none, []⟩⟩
        "cell_coverage" [] "CSV" =
      .err "NoRoute" "Could not determine any suitable route.") :=
  ⟨(fallback_to_fastest ⟨⟨some ⟨[], 100, 1000⟩, []⟩, ⟨none, []⟩, ⟨none, []⟩⟩
      "cell_coverage" [] "CSV" rfl).1 ⟨[], 100, 1000⟩ rfl,
   (fallback_to_fastest ⟨⟨none, []⟩, ⟨none, []⟩, ⟨none, []⟩⟩
      "cell_coverage" [] "CSV" rfl).2 rfl⟩

/-- C5: when the precheck distance exceeds 900 km the orchestrator fails fast
with `DistanceLimitExceeded`, and its result does not depend on either external
provider (no provider call is made); at or below 900 km the precheck passes and
the orchestrator proceeds to the provider pipeline. -/
theorem distance_limit_precheck (rp rp2 : RouteProvider) (tp tp2 : TowerProvider)
    (start_lat start_lng end_lat end_lng : ℝ) (optimizationType : String) :
    (preDistKm start_lat start_lng end_lat end_lng > 900 →
      getOptimizedRoute rp tp start_lat start_lng end_lat end_lng optimizationType =
        .err "DistanceLimitExceeded"
          "Route exceeds the maximum waypoint distance limit of the GraphHopper API free tier." ∧
      getOptimizedRoute rp tp start_lat start_lng end_lat end_lng optimizationType =
        getOptimizedRoute rp2 tp2 start_lat start_lng end_lat end_lng optimizationType) ∧
    (preDistKm start_lat start_lng end_lat end_lng ≤ 900 →
      getOptimizedRoute rp tp start_lat start_lng end_lat end_lng optimizationType =
        orchAfterPrecheck rp tp start_lat start_lng end_lat end_lng optimizationType) := by
  constructor
  · intro h
    exact ⟨by simp [getOptimizedRoute, h], by simp [getOptimizedRoute, h]⟩
  · intro h
    simp [getOptimizedRoute, not_lt.mpr h]

theorem preDistKm_antipodal : preDistKm 0 0 0 180 = 6371 * Real.pi := by
  simp only [preDistKm]
  rw [show (180 : ℝ) * Real.pi / 180 = Real.pi by ring]
  norm_num [Real.sin_zero, Real.cos_zero, Real.sin_pi_div_two, Real.sqrt_one, Real.arcsin_one]
  ring

theorem preDistKm_degenerate : preDistKm 0 0 0 0 = 0 := by
  simp [preDistKm, Real.sin_zero, Real.sqrt_zero, Real.arcsin_zero]

theorem distance_limit_precheck_witness :
    (preDistKm 0 0 0 180 > 900 ∧
      getOptimizedRoute (fun _ _ _ _ => .err "Error" "a") (fun _ _ _ _ => ⟨[], "CSV"⟩)
          0 0 0 180 "fastest" =
        .err "DistanceLimitExceeded"
          "Route exceeds the maximum waypoint distance limit of the GraphHopper API free tier." ∧
      getOptimizedRoute (fun _ _ _ _ => .err "Error" "a") (fun _ _ _ _ => ⟨[], "CSV"⟩)
          0 0 0 180 "fastest" =
        getOptimizedRoute (fun _ _ _ _ => .err "Error" "b") (fun _ _ _ _ => ⟨[], "mock"⟩)
          0 0 0 180 "fastest") ∧
    (preDistKm 0 0 0 0 ≤ 900 ∧
      getOptimizedRoute (fun _ _ _ _ => .err "Error" "a") (fun _ _ _ _ => ⟨[], "CSV"⟩)
          0 0 0 0 "fastest" =
        orchAfterPrecheck (fun _ _ _ _ => .err "Error" "a") (fun _ _ _ _ => ⟨[], "CSV"⟩)
          0 0 0 0 "fastest") := by
  have hgt : preDistKm 0 0 0 180 > 900 := by
    rw [preDistKm_antipodal]; nlinarith [Real.pi_gt_three]
  have hle : preDistKm 0 0 0 0 ≤ 900 := by
    rw [preDistKm_degenerate]; norm_num
  exact ⟨⟨hgt,
    ((distance_limit_precheck (fun _ _ _ _ => .err "Error" "a") (fun _ _ _ _ => .err "Error" "b")
      (fun _ _ _ _ => ⟨[], "CSV"⟩) (fun _ _ _ _ => ⟨[], "mock"⟩) 0 0 0 180 "fastest").1 hgt).1,
    ((distance_limit_precheck (fun _ _ _ _ => .err "Error" "a") (fun _ _ _ _ => .err "Error" "b")
      (fun _ _ _ _ => ⟨[], "CSV"⟩) (fun _ _ _ _ => ⟨[], "mock"⟩) 0 0 0 180 "fastest").1 hgt).2⟩,
   ⟨hle,
    (distance_limit_precheck (fun _ _ _ _ => .err "Error" "a") (fun _ _ _ _ => .err "Error" "b")
      (fun _ _ _ _ => ⟨[], "CSV"⟩) (fun _ _ _ _ => ⟨[], "mock"⟩) 0 0 0 0 "fastest").2 hle⟩⟩

/-- C3 (amended): over a non-empty candidate list, each candidate's
`norm_duration` is `1 - clamp((duration - min)/range, 0, 1)` and `norm_signal`
is `clamp((avg_signal - min)/range, 0, 1)`, where each range is
`max(1, max - min)` — i.e. any raw range below 1, not just a range of exactly
0, is replaced by 1 — and `balanced_score` weighs the two normalized scores
equally. -/
theorem normalization_formulas (alternativeRoutes : List Route) (towersInArea : List Tower)
    (_hne : alternativeRoutes ≠ []) (s : Scored)
    (hs : s ∈ normalizeScores (scoreRoutes alternativeRoutes towersInArea)) :
    s.norm_duration = 1 - clampQ ((s.duration -
        qMin ((scoreRoutes alternativeRoutes towersInArea).map (·.duration))) /
      max 1 (qMax ((scoreRoutes alternativeRoutes towersInArea).map (·.duration)) -
        qMin ((scoreRoutes alternativeRoutes towersInArea).map (·.duration)))) ∧
    s.norm_signal = clampQ ((s.avg_signal -
        qMin ((scoreRoutes alternativeRoutes towersInArea).map (·.avg_signal))) /
      max 1 (qMax ((scoreRoutes alternativeRoutes towersInArea).map (·.avg_signal)) -
        qMin ((scoreRoutes alternativeRoutes towersInArea).map (·.avg_signal)))) ∧
    s.balanced_score = (1 / 2) * s.norm_duration + (1 / 2) * s.norm_signal := by
  unfold normalizeScores at hs
  simp only [List.mem_map] at hs
  obtain ⟨sb, hsb, rfl⟩ := hs
  refine ⟨rfl, rfl, ?_⟩
  show (1 - clampQ _) * (1 / 2) + clampQ _ * (1 / 2) =
    (1 / 2) * (1 - clampQ _) + (1 / 2) * clampQ _
  ring

theorem normalization_formulas_witness :
    (([⟨[], 100, 0⟩, ⟨[], 200, 0⟩] : List Route) ≠ [] ∧
      ∃ s : Scored, s ∈ normalizeScores (scoreRoutes [⟨[], 100, 0⟩, ⟨[], 200, 0⟩] []) ∧
        s.norm_duration = 1 - clampQ ((s.duration -
            qMin ((scoreRoutes [⟨[], 100, 0⟩, ⟨[], 200, 0⟩] []).map (·.duration))) /
          max 1 (qMax ((scoreRoutes [⟨[], 100, 0⟩, ⟨[], 200, 0⟩] []).map (·.duration)) -
            qMin ((scoreRoutes [⟨[], 100, 0⟩, ⟨[], 200, 0⟩] []).map (·.duration))))) := by
  refine ⟨by simp, ?_⟩
  have hlen : 0 < (normalizeScores (scoreRoutes [⟨[], 100, 0⟩, ⟨[], 200, 0⟩] [])).length := by
    simp [normalizeScores, scoreRoutes]
  obtain ⟨s, hs⟩ := List.exists_mem_of_length_pos hlen
  exact ⟨s, hs, (normalization_formulas [⟨[], 100, 0⟩, ⟨[], 200, 0⟩] [] (by simp) s hs).1⟩

/-- C3 (counterexample): two candidates with durations 0 s and 1/2 s.  The raw
duration range is 1/2, which is nonzero, so the claim's formula divides by 1/2
and gives the slower candidate a `norm_duration` of 0; the code divides by
`max(1, range) = 1` and gives it 1/2. -/
theorem normalization_range_cex :
    ((normalizeScores (scoreRoutes [⟨[], 0, 0⟩, ⟨[], 1 / 2, 0⟩] [])).map
        (·.norm_duration)) = [1, 1 / 2] ∧
    claimNormDuration (1 / 2) 0 (1 / 2) = 0 ∧
    (1 / 2 : ℚ) ≠ 0 := by
  refine ⟨?_, by norm_num [claimNormDuration, clampQ], by norm_num⟩
  have hf : find_towers_along_route ([] : List Pt) ([] : List Tower) TOWER_PROXIMITY_METERS = [] := by
    unfold find_towers_along_route
    rw [if_pos (Or.inl rfl)]
  have henum : ([⟨[], 0, 0⟩, ⟨[], 1 / 2, 0⟩] : List Route).enum =
      [(0, ⟨[], 0, 0⟩), (1, ⟨[], 1 / 2, 0⟩)] := rfl
  have hsr : scoreRoutes [⟨[], 0, 0⟩, ⟨[], 1 / 2, 0⟩] [] =
      [⟨⟨[], 0, 0⟩, [], 0, -120, 0, 0⟩, ⟨⟨[], 1 / 2, 0⟩, [], 0, -120, 1 / 2, 1⟩] := by
    unfold scoreRoutes
    rw [henum]
    simp [hf, avgSignalOf]
  rw [hsr]
  unfold normalizeScores
  norm_num [qMin, qMax, clampQ]

theorem length_filterMap_of_isSome {α β : Type} (l : List α) (f : α → Option β)
    (h : ∀ x ∈ l, (f x).isSome = true) : (l.filterMap f).length = l.length := by
  induction l with
  | nil => rfl
  | cons a l ih =>
    obtain ⟨b, hb⟩ := Option.isSome_iff_exists.mp (h a (by simp))
    rw [List.filterMap_cons, hb]
    simp only [List.length_cons]
    rw [ih (fun x hx => h x (by simp [hx]))]

theorem sampled_length {β : Type} (nearby : List β)
    (h200 : MAX_TOWERS_ALONG_ROUTE < nearby.length) :
    ((sampleIndices nearby.length).filterMap (fun i => nearby.get? i)).length =
      MAX_TOWERS_ALONG_ROUTE := by
  have hq : 0 < nearby.length := lt_of_le_of_lt (Nat.zero_le _) h200
  rw [length_filterMap_of_isSome]
  · simp [sampleIndices]
  · intro i hi
    simp only [sampleIndices, List.mem_map, List.mem_range] at hi
    obtain ⟨j, hj, rfl⟩ := hi
    have hlt : j * nearby.length / MAX_TOWERS_ALONG_ROUTE < nearby.length := by
      rw [Nat.div_lt_iff_lt_mul (by norm_num [MAX_TOWERS_ALONG_ROUTE])]
      calc j * nearby.length < MAX_TOWERS_ALONG_ROUTE * nearby.length :=
            (Nat.mul_lt_mul_right hq).mpr hj
        _ = nearby.length * MAX_TOWERS_ALONG_ROUTE := Nat.mul_comm _ _
    rw [List.get?_eq_getElem?, List.getElem?_eq_getElem hlt]
    rfl

theorem find_towers_along_route_length (coords : List Pt) (towers : List Tower) (maxd : ℝ) :
    (find_towers_along_route coords towers maxd).length =
      min (findTowersNearRouteShapely coords towers maxd).length MAX_TOWERS_ALONG_ROUTE := by
  unfold find_towers_along_route
  by_cases hg : coords = [] ∨ towers = []
  · rw [if_pos hg]
    have hempty : findTowersNearRouteShapely coords towers maxd = [] := by
      unfold findTowersNearRouteShapely
      rcases hg with h | h
      · subst h; rw [if_pos (Or.inl (by simp))]
      · rw [if_pos (Or.inr h)]
    rw [hempty]
    simp [MAX_TOWERS_ALONG_ROUTE]
  · rw [if_neg hg]
    simp only []
    by_cases hlen :
      MAX_TOWERS_ALONG_ROUTE < (findTowersNearRouteShapely coords towers maxd).length
    · rw [if_pos hlen, sampled_length _ hlen, Nat.min_eq_right (le_of_lt hlen)]
    · rw [if_neg hlen, Nat.min_eq_left (Nat.le_of_not_lt hlen)]

/-- C4 (amended): a scored candidate's tower list is the result of the capped
wrapper around the proximity search, so `tower_count` is the length of the
4.2 search result capped at `MAX_TOWERS_ALONG_ROUTE = 200` (uniform index
striding), and `avg_signal` averages the possibly downsampled list (defaulting
to -120 when it is empty). -/
theorem tower_count_capped (alternativeRoutes : List Route) (towersInArea : List Tower)
    (s : ScoredBase) (hs : s ∈ scoreRoutes alternativeRoutes towersInArea) :
    s.towers = find_towers_along_route s.route.coordinates towersInArea TOWER_PROXIMITY_METERS ∧
    s.tower_count =
      min (findTowersNearRouteShapely s.route.coordinates towersInArea
        TOWER_PROXIMITY_METERS).length MAX_TOWERS_ALONG_ROUTE ∧
    s.avg_signal = avgSignalOf s.towers := by
  unfold scoreRoutes at hs
  simp only [List.mem_map] at hs
  obtain ⟨ir, hir, rfl⟩ := hs
  exact ⟨rfl, find_towers_along_route_length _ _ _, rfl⟩

theorem tower_count_capped_witness :
    ∃ s : ScoredBase, s ∈ scoreRoutes [⟨[], 5, 7⟩] [] ∧
      s.tower_count =
        min (findTowersNearRouteShapely s.route.coordinates []
          TOWER_PROXIMITY_METERS).length MAX_TOWERS_ALONG_ROUTE := by
  obtain ⟨s, hs⟩ := List.exists_mem_of_length_pos
    (show 0 < (scoreRoutes [⟨[], 5, 7⟩] ([] : List Tower)).length by simp [scoreRoutes])
  exact ⟨s, hs, (tower_count_capped [⟨[], 5, 7⟩] [] s hs).2.1⟩

theorem haversineDist_self (lat lon : ℝ) : haversineDist lat lon lat lon = 0 := by
  simp [haversineDist, Real.sin_zero, Real.sqrt_zero, Real.arcsin_zero]

theorem origin_seg_nearest :
    lineNearest (segsOf [((0 : ℝ), 0), (1, 0)]) (0, 0) = (0, 0) := by
  norm_num [segsOf, lineNearest, segClosest, segParam]

theorem origin_proc :
    processTower (segsOf [((0 : ℝ), 0), (1, 0)]) (polyLength (segsOf [((0 : ℝ), 0), (1, 0)]))
      2500 ⟨some 0, some 0, some (-80), 0⟩ =
    some ⟨⟨some 0, some 0, some (-80), 0⟩, 0, 0⟩ := by
  unfold processTower
  simp only [origin_seg_nearest]
  norm_num [sqDist, Real.sqrt_zero, haversineDist_self, lineProject, segClosest, segParam,
    segLength, polyLength, segsOf, Real.sqrt_one]

theorem shapely_201_length :
    (findTowersNearRouteShapely [((0 : ℝ), 0), (1, 0)]
      (List.replicate 201 ⟨some 0, some 0, some (-80), 0⟩) 2500).length = 201 := by
  unfold findTowersNearRouteShapely
  rw [if_neg (by simp)]
  simp only []
  rw [List.length_mergeSort, List.filterMap_replicate, origin_proc]
  exact List.length_replicate 201 _

/-- C4 (counterexample): one route along the equator with 201 copies of a tower
sitting directly on it.  All 201 towers are within 2500 m, so the 4.2 proximity
search returns 201 towers, but the selector's `tower_count` is 200 because
`find_towers_along_route` downsamples to `MAX_TOWERS_ALONG_ROUTE`. -/
theorem tower_count_cap_cex :
    ((scoreRoutes [⟨[((0 : ℝ), 0), (1, 0)], 100, 1000⟩]
        (List.replicate 201 ⟨some 0, some 0, some (-80), 0⟩)).map (·.tower_count)) = [200] ∧
    (findTowersNearRouteShapely [((0 : ℝ), 0), (1, 0)]
        (List.replicate 201 ⟨some 0, some 0, some (-80), 0⟩) 2500).length = 201 ∧
    (200 : ℕ) ≠ 201 := by
  refine ⟨?_, shapely_201_length, by norm_num⟩
  unfold scoreRoutes
  rw [show ([⟨[((0 : ℝ), 0), (1, 0)], 100, 1000⟩] : List Route).enum =
    [(0, ⟨[((0 : ℝ), 0), (1, 0)], 100, 1000⟩)] from rfl]
  simp only [List.map_cons, List.map_nil]
  show [(find_towers_along_route [((0 : ℝ), 0), (1, 0)]
    (List.replicate 201 ⟨some 0, some 0, some (-80), 0⟩) TOWER_PROXIMITY_METERS).length] = [200]
  rw [find_towers_along_route_length,
    show TOWER_PROXIMITY_METERS = (2500 : ℝ) from rfl, shapely_201_length]
  rfl

theorem towers_near_route_membership_witness :
    (∃ aug ∈ findTowersNearRouteShapely [((0 : ℝ), 0), (1, 0)]
        [⟨some 0, some 0, some (-80), 0⟩] 2500,
      aug.base = ⟨some 0, some 0, some (-80), 0⟩) ↔
    (Real.sqrt (sqDist (0, 0) (lineNearest (segsOf [((0 : ℝ), 0), (1, 0)]) (0, 0)))
        ≤ 2500 / 111000 * 1.5 ∧
     haversineDist 0 0 (lineNearest (segsOf [((0 : ℝ), 0), (1, 0)]) (0, 0)).2
        (lineNearest (segsOf [((0 : ℝ), 0), (1, 0)]) (0, 0)).1 ≤ 2500) :=
  towers_near_route_membership [((0 : ℝ), 0), (1, 0)] [⟨some 0, some 0, some (-80), 0⟩]
    2500 ⟨some 0, some 0, some (-80), 0⟩ 0 0 (by norm_num) (by simp) rfl rfl

theorem towers_near_route_skips_bad_witness :
    (findTowersNearRouteShapely [((0 : ℝ), 0)] [] 2500 = []) ∧
    (findTowersNearRouteShapely [((0 : ℝ), 0), (1, 1)]
        ([] ++ ⟨none, some 0, none, 3⟩ :: []) 2500 =
      findTowersNearRouteShapely [((0 : ℝ), 0), (1, 1)] ([] ++ []) 2500) :=
  ⟨(towers_near_route_skips_bad [((0 : ℝ), 0)] [] [] [] ⟨none, some 0, none, 3⟩ 2500).1
      (by norm_num),
   (towers_near_route_skips_bad [((0 : ℝ), 0), (1, 1)] [] [] [] ⟨none, some 0, none, 3⟩ 2500).2
      (Or.inl rfl)⟩

theorem scoreRoutes_length (routes : List Route) (towers : List Tower) :
    (scoreRoutes routes towers).length = routes.length := by
  unfold scoreRoutes
  rw [List.length_map, List.enum_length]

theorem normalizeScores_length (l : List ScoredBase) :
    (normalizeScores l).length = l.length := by
  unfold normalizeScores
  simp only []
  rw [List.length_map]

theorem normalizeScores_indices (l : List ScoredBase) :
    (normalizeScores l).map (·.index) = l.map (·.index) := by
  unfold normalizeScores
  simp only []
  rw [List.map_map]
  rfl

theorem scoreRoutes_indices (routes : List Route) (towers : List Tower) :
    (scoreRoutes routes towers).map (·.index) = List.range routes.length := by
  unfold scoreRoutes
  rw [List.map_map]
  exact List.enum_map_fst routes

theorem scored_nodup_indices (routes : List Route) (towers : List Tower) :
    ((normalizeScores (scoreRoutes routes towers)).map (·.index)).Nodup := by
  rw [normalizeScores_indices, scoreRoutes_indices]
  exact List.nodup_range _

theorem pickAlt_spec (top : Scored) (rest : List Scored) (used : List ℕ)
    (hex : top.index ∈ used → ∃ x ∈ rest, x.index ∉ used) :
    (pickAlt top rest used).index ∉ used := by
  unfold pickAlt
  by_cases hm : top.index ∈ used
  · rw [if_pos hm]
    obtain ⟨x, hx, hxu⟩ := hex hm
    have hsome : (rest.find? (fun s => decide (s.index ∉ used))).isSome := by
      rw [List.find?_isSome]
      exact ⟨x, hx, by simpa using hxu⟩
    obtain ⟨y, hy⟩ := Option.isSome_iff_exists.mp hsome
    rw [hy]
    simpa using List.find?_some hy
  · rw [if_neg hm]
    exact hm

/-- C1: with at least three candidates (whose `enumerate` indices are distinct
by construction), the fastest, cell-coverage and balanced picks of the
selector are pairwise distinct by candidate index. -/
theorem diverse_picks (routes : List Route) (towersInArea : List Tower)
    (h3 : 3 ≤ routes.length) :
    ∃ f c b : Scored,
      selectTriple (normalizeScores (scoreRoutes routes towersInArea)) =
        (some f, some c, some b) ∧
      selectOptimizedRoutes routes towersInArea =
        ⟨⟨some f.route, f.towers⟩, ⟨some c.route, c.towers⟩, ⟨some b.route, b.towers⟩⟩ ∧
      f.index ≠ c.index ∧ f.index ≠ b.index ∧ c.index ≠ b.index := by
  set scored := normalizeScores (scoreRoutes routes towersInArea) with hscored
  have hslen : scored.length = routes.length := by
    rw [hscored, normalizeScores_length, scoreRoutes_length]
  have hnodup : (scored.map (·.index)).Nodup := scored_nodup_indices routes towersInArea
  have hpermD : (sortByDuration scored).Perm scored := by
    unfold sortByDuration; exact List.mergeSort_perm scored _
  have hpermS : (sortBySignal scored).Perm scored := by
    unfold sortBySignal; exact List.mergeSort_perm scored _
  have hpermB : (sortByBalanced scored).Perm scored := by
    unfold sortByBalanced; exact List.mergeSort_perm scored _
  have hlenD : (sortByDuration scored).length = routes.length := by
    rw [hpermD.length_eq, hslen]
  have hlenS : (sortBySignal scored).length = routes.length := by
    rw [hpermS.length_eq, hslen]
  have hlenB : (sortByBalanced scored).length = routes.length := by
    rw [hpermB.length_eq, hslen]
  have hndS : ((sortBySignal scored).map (·.index)).Nodup :=
    ((hpermS.map (·.index)).nodup_iff).mpr hnodup
  have hndB : ((sortByBalanced scored).map (·.index)).Nodup :=
    ((hpermB.map (·.index)).nodup_iff).mpr hnodup
  obtain ⟨f, dtl, hD⟩ : ∃ f dtl, sortByDuration scored = f :: dtl := by
    cases hd : sortByDuration scored with
    | nil => rw [hd] at hlenD; simp at hlenD; omega
    | cons a l => exact ⟨a, l, rfl⟩
  obtain ⟨c0, ctl, hS⟩ : ∃ c0 ctl, sortBySignal scored = c0 :: ctl := by
    cases hd : sortBySignal scored with
    | nil => rw [hd] at hlenS; simp at hlenS; omega
    | cons a l => exact ⟨a, l, rfl⟩
  obtain ⟨cx, ctl', hS'⟩ : ∃ cx ctl', ctl = cx :: ctl' := by
    cases hd : ctl with
    | nil => rw [hS, hd] at hlenS; simp at hlenS; omega
    | cons a l => exact ⟨a, l, rfl⟩
  obtain ⟨b0, btl, hB⟩ : ∃ b0 btl, sortByBalanced scored = b0 :: btl := by
    cases hd : sortByBalanced scored with
    | nil => rw [hd] at hlenB; simp at hlenB; omega
    | cons a l => exact ⟨a, l, rfl⟩
  obtain ⟨x0, btl', hB'⟩ : ∃ x0 btl', btl = x0 :: btl' := by
    cases hd : btl with
    | nil => rw [hB, hd] at hlenB; simp at hlenB; omega
    | cons a l => exact ⟨a, l, rfl⟩
  obtain ⟨x1, btl2, hB2⟩ : ∃ x1 btl2, btl' = x1 :: btl2 := by
    cases hd : btl' with
    | nil => rw [hB, hB', hd] at hlenB; simp at hlenB; omega
    | cons a l => exact ⟨a, l, rfl⟩
  have hsel : selectTriple scored =
      (some f, some (pickAlt c0 ctl [f.index]),
       some (pickAlt b0 btl ([f.index] ++ [(pickAlt c0 ctl [f.index]).index]))) := by
    unfold selectTriple
    simp only []
    rw [hD, hS, hB]
    rfl
  set cpick := pickAlt c0 ctl [f.index] with hcpick
  have hcnotin : cpick.index ∉ ([f.index] : List ℕ) := by
    apply pickAlt_spec
    intro hc0
    have hc0' : c0.index = f.index := by simpa using hc0
    have hnotin : c0.index ∉ ctl.map (·.index) := by
      rw [hS] at hndS
      exact (List.nodup_cons.mp hndS).1
    refine ⟨cx, by rw [hS']; exact List.mem_cons_self _ _, ?_⟩
    simp only [List.mem_singleton]
    intro heq
    apply hnotin
    rw [hc0', ← heq]
    exact List.mem_map_of_mem _ (by rw [hS']; exact List.mem_cons_self _ _)
  have hfc : f.index ≠ cpick.index := by
    intro h
    apply hcnotin
    rw [← h]
    exact List.mem_singleton_self _
  set used1 : List ℕ := [f.index] ++ [cpick.index] with hused1
  set bpick := pickAlt b0 btl used1 with hbpick
  have hbnotin : bpick.index ∉ used1 := by
    apply pickAlt_spec
    intro hb0
    have hndB' : (b0.index :: x0.index :: x1.index :: (btl2.map (·.index))).Nodup := by
      have := hndB
      rw [hB, hB', hB2] at this
      simpa using this
    have hbx0 : x0.index ≠ b0.index := by
      intro h
      have := (List.nodup_cons.mp hndB').1
      exact this (by rw [← h]; exact List.mem_cons_self _ _)
    have hbx1 : x1.index ≠ b0.index := by
      intro h
      have := (List.nodup_cons.mp hndB').1
      exact this (by rw [← h]; simp)
    have hx01 : x0.index ≠ x1.index := by
      have := (List.nodup_cons.mp (List.nodup_cons.mp hndB').2).1
      intro h
      exact this (by rw [← h]; exact List.mem_cons_self _ _)
    by_cases h0 : x0.index ∈ used1
    · refine ⟨x1, by rw [hB', hB2]; simp, ?_⟩
      intro hx1mem
      rw [hused1] at hb0 h0 hx1mem
      simp only [List.mem_append, List.mem_singleton] at hb0 h0 hx1mem
      omega
    · exact ⟨x0, by rw [hB']; exact List.mem_cons_self _ _, h0⟩
  have hfb : f.index ≠ bpick.index := by
    intro h
    apply hbnotin
    rw [hused1, ← h]
    simp
  have hcb : cpick.index ≠ bpick.index := by
    intro h
    apply hbnotin
    rw [hused1, ← h]
    simp
  have hne : routes ≠ [] := by
    intro h
    rw [h] at h3
    simp at h3
  have hsne : scored ≠ [] := by
    intro h
    rw [h] at hslen
    simp at hslen
    omega
  refine ⟨f, cpick, bpick, hsel, ?_, hfc, hfb, hcb⟩
  unfold selectOptimizedRoutes
  rw [if_neg hne]
  simp only []
  rw [← hscored, if_neg hsne, hsel]
  rfl

theorem diverse_picks_witness :
    ∃ f c b : Scored,
      selectTriple (normalizeScores (scoreRoutes
        [⟨[], 100, 0⟩, ⟨[], 200, 0⟩, ⟨[], 300, 0⟩] [])) = (some f, some c, some b) ∧
      selectOptimizedRoutes [⟨[], 100, 0⟩, ⟨[], 200, 0⟩, ⟨[], 300, 0⟩] [] =
        ⟨⟨some f.route, f.towers⟩, ⟨some c.route, c.towers⟩, ⟨some b.route, b.towers⟩⟩ ∧
      f.index ≠ c.index ∧ f.index ≠ b.index ∧ c.index ≠ b.index :=
  diverse_picks [⟨[], 100, 0⟩, ⟨[], 200, 0⟩, ⟨[], 300, 0⟩] [] (by simp)

/-- C8: for all numeric coordinate pairs, the haversine distance is symmetric
and vanishes on equal points. -/
theorem haversine_symm_and_self (lat1 lon1 lat2 lon2 : ℝ) :
    haversineDist lat1 lon1 lat2 lon2 = haversineDist lat2 lon2 lat1 lon1 ∧
    haversineDist lat1 lon1 lat1 lon1 = 0 := by
  constructor
  · simp only [haversineDist]
    rw [sin_sq_swap (lat2 * Real.pi / 180) (lat1 * Real.pi / 180),
        sin_sq_swap (lon2 * Real.pi / 180) (lon1 * Real.pi / 180)]
    ring_nf
  · simp [haversineDist, Real.sin_zero, Real.sqrt_zero, Real.arcsin_zero]
